import Mathlib

/-!
Verification of the obsidian-mcp-server core: the token-budgeted response
pipeline (tokenization.ts and the base tool handler) and the frontmatter
property merge engine.  Machine integers are modelled as `Int`/`Nat`;
JavaScript `Array.prototype.slice` is modelled with its real index
normalisation (a negative end index counts from the end of the array).
The tiktoken tokenizer is an external library, so the embedding is
parametric in a `Tokenizer` (an encode/decode pair); a concrete
character-level instance is used for evaluation.
-/

/-- JavaScript index normalisation used by `Array.prototype.slice`:
a negative index counts from the end of the array (clamped at 0),
a non-negative index is clamped at the array length. -/
def normSliceIndex (len : Nat) (i : Int) : Nat :=
  if i < 0 then ((len : Int) + i).toNat else min i.toNat len

/-- JavaScript `xs.slice(startIdx, endIdx)` on a list of tokens. -/
def arraySlice (xs : List Nat) (startIdx endIdx : Int) : List Nat :=
  (xs.take (normSliceIndex xs.length endIdx)).drop (normSliceIndex xs.length startIdx)

/-- An encode/decode pair standing for the external tiktoken encoding
returned by `encoding_for_model("gpt-4")`.  Tokens are natural numbers. -/
structure Tokenizer where
  encode : String → List Nat
  decode : List Nat → String

/-- A concrete tokenizer in which every character is one token; used to
evaluate the truncation pipeline on concrete inputs. -/
def charTokenizer : Tokenizer where
  encode := fun s => s.data.map Char.toNat
  decode := fun ts => String.mk (ts.map Char.ofNat)

namespace Tokenization

/-- `MAX_TOKENS = parseInt(process.env.MAX_TOKENS ?? '20000')` in
tokenization.ts, as a function of the numeric value of the environment
variable (absent environment variable gives the default 20000). -/
def MAX_TOKENS (env : Option Int) : Int :=
  env.getD 20000

/-- The truncation marker of tokenization.ts. -/
def TRUNCATION_MESSAGE : String := "\n\n[Response truncated due to length]"

namespace TokenCounter

/-- `TokenCounter.countTokens`: length of the encoded token sequence. -/
def countTokens (tk : Tokenizer) (text : String) : Nat :=
  (tk.encode text).length

/-- `TokenCounter.truncateToTokenLimit` (tokenization.ts lines 51-64).
Note that `availableTokens` is `limit - messageTokens.length` with no
clamping at zero, and the token list is cut with JavaScript slice
semantics. -/
def truncateToTokenLimit (tk : Tokenizer) (text : String) (limit : Int) : String :=
  let tokens := tk.encode text
  if (tokens.length : Int) ≤ limit then
    text
  else
    let messageTokens := tk.encode TRUNCATION_MESSAGE
    let availableTokens : Int := limit - (messageTokens.length : Int)
    let truncatedText := tk.decode (arraySlice tokens 0 availableTokens)
    truncatedText ++ TRUNCATION_MESSAGE

end TokenCounter

end Tokenization

/-- Modelled from the spec: the truncation algorithm as the specification
words it, with `available = max(0, limit - reserved)` and a plain prefix
take; written only to be compared with the code's
`TokenCounter.truncateToTokenLimit`. -/
def truncateToTokenLimitSpec (tk : Tokenizer) (text : String) (limit : Int) : String :=
  let tokens := tk.encode text
  if (tokens.length : Int) ≤ limit then
    text
  else
    let reserved : Int := ((tk.encode Tokenization.TRUNCATION_MESSAGE).length : Int)
    let available : Int := max 0 (limit - reserved)
    tk.decode (tokens.take available.toNat) ++ Tokenization.TRUNCATION_MESSAGE

/-- Fifty characters of text, used as a concrete over-budget input. -/
def cexText : String := String.mk (List.replicate 50 'a')

/-- A JavaScript runtime value as it can reach `createResponse`:
a string, a byte buffer, an array, an `Error` (message plus optional
stack), a number, a boolean, `null`, or a plain object. -/
inductive JSValue where
  | vstr (s : String)
  | vbuffer (bytes : List Nat)
  | varr (items : List JSValue)
  | verror (message : String) (stack : Option String)
  | vnum (n : Int)
  | vbool (b : Bool)
  | vnull
  | vobj (fields : List (String × JSValue))

/-- `typeof item === 'string'`. -/
def JSValue.isStringValue : JSValue → Bool
  | JSValue.vstr _ => true
  | _ => false

/-- The string carried by a `vstr`; only used under the all-strings guard
(mirrors `content.join('\n')` on an array of strings). -/
def JSValue.strOrEmpty : JSValue → String
  | JSValue.vstr s => s
  | _ => ""

/-- The JavaScript built-ins used by `createResponse`, external to the
repository: `Buffer.prototype.toString('utf-8')`, `JSON.stringify(v, null, 2)`
(`none` models a thrown serialization error), and `String(v)`. -/
structure JsRuntime where
  utf8Decode : List Nat → String
  jsonStringifyPretty : JSValue → Option String
  jsToString : JSValue → String

/-- `JSON.stringify(content, null, 2)` with the `catch` fallback to
`String(content)` (tools.ts lines 173-177). -/
def jsonOrString (rt : JsRuntime) (content : JSValue) : String :=
  match rt.jsonStringifyPretty content with
  | some s => s
  | none => rt.jsToString content

/-- A single ASCII apostrophe, as it appears in the error messages. -/
def singleQuote : String := String.mk [Char.ofNat 39]

/-- The `TextContent` value returned by tool handlers. -/
structure TextContent where
  type : String
  text : String

/-- The `details` payload passed to the `ObsidianError` constructor:
either `{ originalError: error.stack }` or `{ error }`. -/
inductive ErrorDetails where
  | noDetails
  | originalError (stack : Option String)
  | raw (v : JSValue)

/-- The typed error of the repository (declared in types.ts, which is not
part of the source snapshot; its shape — message, numeric code, details —
is taken from the constructor calls in tools.ts and the spec's
ExecutionError description). -/
structure ObsidianError where
  message : String
  code : Nat
  details : ErrorDetails

/-- A value caught by a tool handler's catch block: an `ObsidianError`
(checked first by `instanceof`), some other `Error`, or a non-Error
value. -/
inductive CaughtValue where
  | obsidianErr (e : ObsidianError)
  | jsError (message : String) (stack : Option String)
  | nonError (v : JSValue)

namespace Tools

/-- `MAX_TOKENS` of tools.ts: computed by the same expression from the
same environment variable as the one in tokenization.ts. -/
def MAX_TOKENS (env : Option Int) : Int :=
  env.getD 20000

/-- The truncation marker of tools.ts (same literal as tokenization.ts). -/
def TRUNCATION_MESSAGE : String := "\n\n[Response truncated due to length]"

namespace BaseToolHandler

/-- `BaseToolHandler.countTokens` (tools.ts lines 138-140). -/
def countTokens (tk : Tokenizer) (text : String) : Nat :=
  (tk.encode text).length

/-- `BaseToolHandler.truncateToTokenLimit` (tools.ts lines 142-155):
same body as the shared utility, with the limit fixed to `MAX_TOKENS`. -/
def truncateToTokenLimit (tk : Tokenizer) (env : Option Int) (text : String) : String :=
  let tokens := tk.encode text
  if (tokens.length : Int) ≤ MAX_TOKENS env then
    text
  else
    let messageTokens := tk.encode TRUNCATION_MESSAGE
    let availableTokens : Int := MAX_TOKENS env - (messageTokens.length : Int)
    let truncatedText := tk.decode (arraySlice tokens 0 availableTokens)
    truncatedText ++ TRUNCATION_MESSAGE

/-- The content-normalisation branch chain of `createResponse`
(tools.ts lines 163-178): string passes through, Buffer decodes as UTF-8,
an array whose every element is a string joins with newlines, an Error
formats as message plus diagnostic, anything else goes through
`JSON.stringify` with a `String(...)` fallback. -/
def normalizeContent (rt : JsRuntime) (content : JSValue) : String :=
  match content with
  | JSValue.vstr s => s
  | JSValue.vbuffer bytes => rt.utf8Decode bytes
  | JSValue.varr items =>
      if items.all JSValue.isStringValue then
        String.intercalate "\n" (items.map JSValue.strOrEmpty)
      else
        jsonOrString rt content
  | JSValue.verror msg stack => "Error: " ++ msg ++ "\n" ++ stack.getD ""
  | _ => jsonOrString rt content

/-- `BaseToolHandler.createResponse` (tools.ts lines 160-197): normalise,
truncate to the token budget, and wrap in a single text content item.
The token-count debug log is observability only and is not modelled. -/
def createResponse (rt : JsRuntime) (tk : Tokenizer) (env : Option Int)
    (content : JSValue) : List TextContent :=
  let text := normalizeContent rt content
  let truncatedText := truncateToTokenLimit tk env text
  [{ type := "text", text := truncatedText }]

/-- Message of the wrapped execution error for a caught `Error`. -/
def toolFailedMessage (name msg : String) : String :=
  "Tool " ++ singleQuote ++ name ++ singleQuote ++ " execution failed: " ++ msg

/-- Message of the wrapped execution error for a caught non-Error value. -/
def toolFailedUnknownMessage (name : String) : String :=
  "Tool " ++ singleQuote ++ name ++ singleQuote ++ " execution failed with unknown error"

/-- `BaseToolHandler.handleError` (tools.ts lines 199-215).  In the source
it has return type `never` — it always throws; here it returns the
`ObsidianError` that is thrown. -/
def handleError (name : String) : CaughtValue → ObsidianError
  | CaughtValue.obsidianErr e => e
  | CaughtValue.jsError msg stack =>
      { message := toolFailedMessage name msg
        code := 500
        details := ErrorDetails.originalError stack }
  | CaughtValue.nonError v =>
      { message := toolFailedUnknownMessage name
        code := 500
        details := ErrorDetails.raw v }

end BaseToolHandler

end Tools

/-- A demonstration runtime for evaluating `normalizeContent` on concrete
inputs (any `JsRuntime` instance works; the claims are parametric). -/
def demoRuntime : JsRuntime where
  utf8Decode := fun bytes => String.mk (bytes.map Char.ofNat)
  jsonStringifyPretty := fun _ => none
  jsToString := fun _ => "value"

namespace Tokenization

/-- The observable state of the `TokenCounter` cleanup machinery:
the `isShuttingDown` guard flag, how many times `tokenizer.free()` has
actually run, and whether the process listeners are still attached. -/
structure TokenCounterState where
  isShuttingDown : Bool
  freeCount : Nat
  listenersAttached : Bool
deriving DecidableEq

/-- State directly after the constructor (tokenization.ts lines 18-39):
not shutting down, nothing freed, listeners attached. -/
def initState : TokenCounterState :=
  { isShuttingDown := false, freeCount := 0, listenersAttached := true }

/-- `this.cleanupListener` (tokenization.ts lines 20-32): if the guard
flag is unset, set it, free the tokenizer once, and detach the process
listeners; otherwise do nothing. -/
def cleanupListener (s : TokenCounterState) : TokenCounterState :=
  if !s.isShuttingDown then
    { isShuttingDown := true, freeCount := s.freeCount + 1, listenersAttached := false }
  else
    s

/-- `TokenCounter.cleanup` (tokenization.ts lines 69-71): runs the same
cleanup logic. -/
def cleanup (s : TokenCounterState) : TokenCounterState :=
  cleanupListener s

/-- The state after the first release has run. -/
def releasedState : TokenCounterState :=
  { isShuttingDown := true, freeCount := 1, listenersAttached := false }

/-- The termination paths that can trigger cleanup: the four process
events the constructor subscribes to, plus an explicit `cleanup()` call. -/
inductive ShutdownEvent where
  | exitEvent
  | sigint
  | sigterm
  | uncaughtException
  | manualCleanup

/-- Effect of one shutdown event: a process event runs the listener only
while it is still attached; a manual `cleanup()` call always runs it. -/
def handleEvent (e : ShutdownEvent) (s : TokenCounterState) : TokenCounterState :=
  match e with
  | ShutdownEvent.manualCleanup => cleanup s
  | _ => if s.listenersAttached then cleanupListener s else s

/-- Run a whole sequence of shutdown events. -/
def runEvents (es : List ShutdownEvent) (s : TokenCounterState) : TokenCounterState :=
  es.foldl (fun st e => handleEvent e st) s

end Tokenization

/-- Number of tokenizer resources acquired so far in the process. -/
structure ProcessState where
  tokenizersAcquired : Nat
deriving DecidableEq

namespace ProcessModel

/-- The external `encoding_for_model("gpt-4")` call: acquires one more
tokenizer resource. -/
def encoding_for_model (s : ProcessState) : ProcessState :=
  { tokenizersAcquired := s.tokenizersAcquired + 1 }

/-- Constructing a `TokenCounter` runs the field initializer
`tokenizer = encoding_for_model("gpt-4")` (tokenization.ts line 14). -/
def newTokenCounter (s : ProcessState) : ProcessState :=
  encoding_for_model s

/-- Constructing any `BaseToolHandler` runs its own field initializer
`tokenizer = encoding_for_model("gpt-4")` (tools.ts line 115). -/
def newBaseToolHandler (s : ProcessState) : ProcessState :=
  encoding_for_model s

/-- Loading tokenization.ts eagerly evaluates the module-level singleton
`export const tokenCounter = new TokenCounter()` (line 85). -/
def loadTokenizationModule (s : ProcessState) : ProcessState :=
  newTokenCounter s

/-- A process start that loads the shared module and then constructs
`numHandlers` tool handler instances. -/
def startProcess (numHandlers : Nat) : ProcessState :=
  Nat.iterate newBaseToolHandler numHandlers
    (loadTokenizationModule { tokenizersAcquired := 0 })

end ProcessModel

namespace Properties

/-- Modelled from the spec: the typed view of a note's frontmatter
(spec section 3, PropertySet; the field list also matches the
update_properties input schema in the source).  `type` is a reserved
word in Lean, hence the trailing apostrophe.  Custom values are
arbitrary JavaScript values. -/
structure PropertySet where
  title : Option String := none
  created : Option String := none
  modified : Option String := none
  author : Option String := none
  type' : List String := []
  tags : List String := []
  status : List String := []
  version : Option String := none
  platform : Option String := none
  repository : Option String := none
  dependencies : List String := []
  sources : List String := []
  urls : List String := []
  papers : List String := []
  custom : List (String × JSValue) := []

/-- Modelled from the spec: an incoming update — every field optional. -/
structure PropertyUpdate where
  title : Option String := none
  created : Option String := none
  modified : Option String := none
  author : Option String := none
  type' : Option (List String) := none
  tags : Option (List String) := none
  status : Option (List String) := none
  version : Option String := none
  platform : Option String := none
  repository : Option String := none
  dependencies : Option (List String) := none
  sources : Option (List String) := none
  urls : Option (List String) := none
  papers : Option (List String) := none
  custom : Option (List (String × JSValue)) := none

/-- Modelled from the spec: a scalar present in the incoming update
replaces the existing value, otherwise the existing value is kept
(merge rule 1). -/
def overrideScalar (incoming existing : Option String) : Option String :=
  match incoming with
  | some v => some v
  | none => existing

/-- Ordered-set insertion: append the element only if not yet present. -/
def insertIfAbsent (xs : List String) (y : String) : List String :=
  if xs.contains y then xs else xs ++ [y]

/-- Modelled from the spec: existing values followed by incoming values
not already present, first occurrence keeping its position
(merge rule 4). -/
def orderedUnion (xs ys : List String) : List String :=
  ys.foldl insertIfAbsent xs

/-- Array-field merge: union with incoming when supplied. -/
def mergeArray (existing : List String) (incoming : Option (List String)) : List String :=
  match incoming with
  | some ys => orderedUnion existing ys
  | none => existing

/-- Modelled from the spec: shallow merge of the custom map — incoming
keys overwrite same-named existing keys in place, other existing keys are
retained, incoming-only keys are appended (merge rule 5). -/
def shallowMergeCustom (existing incoming : List (String × JSValue)) :
    List (String × JSValue) :=
  existing.map (fun kv =>
    match incoming.lookup kv.fst with
    | some v => (kv.fst, v)
    | none => kv)
  ++ incoming.filter (fun kv => (existing.lookup kv.fst).isNone)

/-- Modelled from the spec: the PropertyMerger merge algorithm
(spec section 4.3, rules 1-5; properties.ts is not part of the source
snapshot).  `created` keeps the existing value whenever one is set and
adopts the incoming value only when absent; `modified` is always set to
the current timestamp. -/
def mergeProperties (now : String) (existing : PropertySet)
    (incoming : PropertyUpdate) : PropertySet :=
  { title := overrideScalar incoming.title existing.title
    author := overrideScalar incoming.author existing.author
    version := overrideScalar incoming.version existing.version
    platform := overrideScalar incoming.platform existing.platform
    repository := overrideScalar incoming.repository existing.repository
    created :=
      match existing.created with
      | some c => some c
      | none => incoming.created
    modified := some now
    type' := mergeArray existing.type' incoming.type'
    tags := mergeArray existing.tags incoming.tags
    status := mergeArray existing.status incoming.status
    dependencies := mergeArray existing.dependencies incoming.dependencies
    sources := mergeArray existing.sources incoming.sources
    urls := mergeArray existing.urls incoming.urls
    papers := mergeArray existing.papers incoming.papers
    custom :=
      match incoming.custom with
      | some c => shallowMergeCustom existing.custom c
      | none => existing.custom }

/-- The `type` enumeration of the schema. -/
def typeEnum : List String :=
  ["concept", "architecture", "specification", "protocol", "api",
   "research", "implementation", "guide", "reference"]

/-- The `status` enumeration of the schema. -/
def statusEnum : List String :=
  ["draft", "in-progress", "review", "complete"]

/-- The schema pattern for tags: the entry starts with a hash sign. -/
def startsWithHash (s : String) : Bool :=
  match s.data with
  | [] => false
  | c :: _ => c == '#'

/-- Scan a character list for the scheme separator of a URI. -/
def hasSchemeSep : List Char → Bool
  | [] => false
  | ':' :: '/' :: '/' :: _ => true
  | _ :: rest => hasSchemeSep rest

/-- Modelled from the spec: "syntactically URI-like" — contains a
scheme separator. -/
def isUriLike (s : String) : Bool :=
  hasSchemeSep s.data

/-- Modelled from the spec: schema validation producing the list of
offending field names (spec section 4.3). -/
def validateProperties (ps : PropertySet) : List String :=
  (if ps.type'.all (fun t => typeEnum.contains t) then [] else ["type"])
  ++ (if ps.tags.all startsWithHash then [] else ["tags"])
  ++ (if ps.status.all (fun t => statusEnum.contains t) then [] else ["status"])
  ++ (if ps.urls.all isUriLike then [] else ["urls"])
  ++ (if (match ps.repository with | some r => isUriLike r | none => true)
      then [] else ["repository"])

/-- Modelled from the spec: `PropertyManager.updateProperties` restricted
to its decision core (spec section 4.4; properties.ts is not part of the
source snapshot): merge the incoming update into the current set, validate
the merged set, persist and return it on success, reject with the
offending field names otherwise. -/
def updateProperties (now : String) (existing : PropertySet)
    (incoming : PropertyUpdate) : Except (List String) PropertySet :=
  let merged := mergeProperties now existing incoming
  let errors := validateProperties merged
  if errors.isEmpty then Except.ok merged else Except.error errors

end Properties

/-- A concrete existing property set whose `created` is already set. -/
def demoExisting : Properties.PropertySet :=
  { created := some "2024-01-01T00:00:00Z", tags := ["#a"] }

/-- A concrete incoming update that tries to overwrite `created`. -/
def demoIncoming : Properties.PropertyUpdate :=
  { created := some "2099-01-01T00:00:00Z", tags := some ["#b"] }

/-- The merge of the two demonstration property sets. -/
def demoMerged : Properties.PropertySet :=
  Properties.mergeProperties "2025-06-01T00:00:00Z" demoExisting demoIncoming

theorem normSliceIndex_zero (len : Nat) : normSliceIndex len 0 = 0 := by
  unfold normSliceIndex
  rw [if_neg (by omega)]
  simp

theorem normSliceIndex_nonneg (len : Nat) (e : Int) (he : 0 ≤ e) :
    normSliceIndex len e = min e.toNat len := by
  unfold normSliceIndex
  rw [if_neg (by omega)]

theorem take_min_length (xs : List Nat) (a : Nat) :
    xs.take (min a xs.length) = xs.take a := by
  rcases Nat.le_total a xs.length with h | h
  · rw [Nat.min_eq_left h]
  · rw [Nat.min_eq_right h, List.take_length, List.take_of_length_le h]

theorem arraySlice_zero_nonneg (xs : List Nat) (e : Int) (he : 0 ≤ e) :
    arraySlice xs 0 e = xs.take e.toNat := by
  unfold arraySlice
  rw [normSliceIndex_zero, normSliceIndex_nonneg _ _ he, List.drop_zero,
    take_min_length]

theorem charTokenizer_reencode_le (ts : List Nat) :
    (charTokenizer.encode (charTokenizer.decode ts)).length ≤ ts.length := by
  simp [charTokenizer]

theorem charTokenizer_append_marker (s : String) :
    (charTokenizer.encode (s ++ Tokenization.TRUNCATION_MESSAGE)).length
      = (charTokenizer.encode s).length
        + (charTokenizer.encode Tokenization.TRUNCATION_MESSAGE).length := by
  simp [charTokenizer]

/-- C2: if `count(text) <= limit` then `truncateToTokenLimit` returns the
text unchanged — truncation is the identity on texts within budget. -/
theorem c2_truncate_identity (tk : Tokenizer) (text : String) (limit : Int)
    (h : (Tokenization.TokenCounter.countTokens tk text : Int) ≤ limit) :
    Tokenization.TokenCounter.truncateToTokenLimit tk text limit = text := by
  unfold Tokenization.TokenCounter.countTokens at h
  simp only [Tokenization.TokenCounter.truncateToTokenLimit]
  rw [if_pos h]

/-- C1 (counterexample): with the character tokenizer, a 50-token text and
budget 10, the output of `truncateToTokenLimit` has 60 tokens (the marker
alone costs 36 tokens, so `availableTokens` is negative and the JavaScript
slice keeps 24 tokens from the front instead of 0), refuting both the
claimed bound `count(truncate(T, L)) <= L` and the claimed internal
computation `available = max(0, L - reserved)`. -/
theorem c1_counterexample :
    (10 : Int) < (Tokenization.TokenCounter.countTokens charTokenizer cexText : Int)
    ∧ ¬ ((Tokenization.TokenCounter.countTokens charTokenizer
          (Tokenization.TokenCounter.truncateToTokenLimit charTokenizer cexText 10) : Int) ≤ 10)
    ∧ Tokenization.TokenCounter.truncateToTokenLimit charTokenizer cexText 10
        ≠ truncateToTokenLimitSpec charTokenizer cexText 10 := by
  refine ⟨by decide, by decide, by decide⟩

/-- C1 (amended): for a tokenizer whose decode-then-reencode does not grow
the token count and whose encoding is additive across the marker boundary,
for every text over budget, PROVIDED the budget is at least the marker's
own token cost, the truncated output stays within the budget and ends with
the marker; internally the code computes `available = limit - reserved`
with NO clamping at zero and slices the first `available` tokens. -/
theorem c1_truncate_over_budget_amended (tk : Tokenizer)
    (hrt : ∀ ts : List Nat, (tk.encode (tk.decode ts)).length ≤ ts.length)
    (hadd : ∀ s : String,
      (tk.encode (s ++ Tokenization.TRUNCATION_MESSAGE)).length
        = (tk.encode s).length + (tk.encode Tokenization.TRUNCATION_MESSAGE).length)
    (text : String) (limit : Int)
    (hover : limit < (Tokenization.TokenCounter.countTokens tk text : Int))
    (hres : ((tk.encode Tokenization.TRUNCATION_MESSAGE).length : Int) ≤ limit) :
    (Tokenization.TokenCounter.countTokens tk
        (Tokenization.TokenCounter.truncateToTokenLimit tk text limit) : Int) ≤ limit
    ∧ (∃ p : String, Tokenization.TokenCounter.truncateToTokenLimit tk text limit
        = p ++ Tokenization.TRUNCATION_MESSAGE)
    ∧ Tokenization.TokenCounter.truncateToTokenLimit tk text limit
        = tk.decode ((tk.encode text).take
            (limit - ((tk.encode Tokenization.TRUNCATION_MESSAGE).length : Int)).toNat)
          ++ Tokenization.TRUNCATION_MESSAGE := by
  unfold Tokenization.TokenCounter.countTokens at hover
  have hlen : ¬ (((tk.encode text).length : Int) ≤ limit) := by omega
  have hav : (0 : Int) ≤ limit - ((tk.encode Tokenization.TRUNCATION_MESSAGE).length : Int) := by
    omega
  have heq : Tokenization.TokenCounter.truncateToTokenLimit tk text limit
      = tk.decode ((tk.encode text).take
          (limit - ((tk.encode Tokenization.TRUNCATION_MESSAGE).length : Int)).toNat)
        ++ Tokenization.TRUNCATION_MESSAGE := by
    simp only [Tokenization.TokenCounter.truncateToTokenLimit]
    rw [if_neg hlen, arraySlice_zero_nonneg _ _ hav]
  refine ⟨?_, ⟨_, heq⟩, heq⟩
  rw [heq]
  unfold Tokenization.TokenCounter.countTokens
  rw [hadd]
  have h1 : (tk.encode (tk.decode ((tk.encode text).take
      (limit - ((tk.encode Tokenization.TRUNCATION_MESSAGE).length : Int)).toNat))).length
      ≤ ((tk.encode text).take
          (limit - ((tk.encode Tokenization.TRUNCATION_MESSAGE).length : Int)).toNat).length :=
    hrt _
  have h2 : ((tk.encode text).take
      (limit - ((tk.encode Tokenization.TRUNCATION_MESSAGE).length : Int)).toNat).length
      ≤ (limit - ((tk.encode Tokenization.TRUNCATION_MESSAGE).length : Int)).toNat := by
    rw [List.length_take]
    exact Nat.min_le_left _ _
  omega

theorem c1_witness :
    ((40 : Int) < (Tokenization.TokenCounter.countTokens charTokenizer cexText : Int)
      ∧ ((charTokenizer.encode Tokenization.TRUNCATION_MESSAGE).length : Int) ≤ 40)
    ∧ ((Tokenization.TokenCounter.countTokens charTokenizer
          (Tokenization.TokenCounter.truncateToTokenLimit charTokenizer cexText 40) : Int) ≤ 40
      ∧ (∃ p : String, Tokenization.TokenCounter.truncateToTokenLimit charTokenizer cexText 40
          = p ++ Tokenization.TRUNCATION_MESSAGE)
      ∧ Tokenization.TokenCounter.truncateToTokenLimit charTokenizer cexText 40
          = charTokenizer.decode ((charTokenizer.encode cexText).take
              ((40 : Int) - ((charTokenizer.encode Tokenization.TRUNCATION_MESSAGE).length : Int)).toNat)
            ++ Tokenization.TRUNCATION_MESSAGE) :=
  ⟨⟨by decide, by decide⟩,
    c1_truncate_over_budget_amended charTokenizer charTokenizer_reencode_le
      charTokenizer_append_marker cexText 40 (by decide) (by decide)⟩

theorem c2_witness :
    ((Tokenization.TokenCounter.countTokens charTokenizer "hi" : Int) ≤ 10)
    ∧ Tokenization.TokenCounter.truncateToTokenLimit charTokenizer "hi" 10 = "hi" :=
  ⟨by decide, c2_truncate_identity charTokenizer "hi" 10 (by decide)⟩

/-- C3: a successful `updateProperties` never overwrites an existing
`created` value — incoming `created` is adopted only when the existing
one is absent. -/
theorem c3_created_write_once (now : String) (existing : Properties.PropertySet)
    (incoming : Properties.PropertyUpdate) (merged : Properties.PropertySet)
    (hok : Properties.updateProperties now existing incoming = Except.ok merged) :
    (∀ c : String, existing.created = some c → merged.created = some c)
    ∧ (existing.created = none → merged.created = incoming.created) := by
  have hm : merged = Properties.mergeProperties now existing incoming := by
    simp only [Properties.updateProperties] at hok
    split at hok
    · exact (Except.ok.inj hok).symm
    · exact absurd hok (by simp)
  subst hm
  constructor
  · intro c hc
    simp [Properties.mergeProperties, hc]
  · intro hc
    simp [Properties.mergeProperties, hc]

theorem c3_witness :
    Properties.updateProperties "2025-06-01T00:00:00Z" demoExisting demoIncoming
      = Except.ok demoMerged
    ∧ demoExisting.created = some "2024-01-01T00:00:00Z"
    ∧ demoIncoming.created = some "2099-01-01T00:00:00Z"
    ∧ demoMerged.created = some "2024-01-01T00:00:00Z" :=
  ⟨rfl, rfl, rfl,
    (c3_created_write_once "2025-06-01T00:00:00Z" demoExisting demoIncoming
        demoMerged rfl).1 "2024-01-01T00:00:00Z" rfl⟩

/-- C4: the normalisation precedence of `createResponse` — a string passes
through, a byte buffer decodes as UTF-8, an array of strings joins with
newlines (an array with any non-string element falls through to JSON),
an Error formats as message plus diagnostic, and every other value is
pretty-printed JSON with a plain string-conversion fallback when
serialization throws. -/
theorem c4_normalization_precedence (rt : JsRuntime) :
    (∀ s : String, Tools.BaseToolHandler.normalizeContent rt (JSValue.vstr s) = s)
    ∧ (∀ bytes : List Nat,
        Tools.BaseToolHandler.normalizeContent rt (JSValue.vbuffer bytes)
          = rt.utf8Decode bytes)
    ∧ (∀ items : List JSValue, items.all JSValue.isStringValue = true →
        Tools.BaseToolHandler.normalizeContent rt (JSValue.varr items)
          = String.intercalate "\n" (items.map JSValue.strOrEmpty))
    ∧ (∀ items : List JSValue, items.all JSValue.isStringValue = false →
        Tools.BaseToolHandler.normalizeContent rt (JSValue.varr items)
          = jsonOrString rt (JSValue.varr items))
    ∧ (∀ msg : String, ∀ stack : Option String,
        Tools.BaseToolHandler.normalizeContent rt (JSValue.verror msg stack)
          = "Error: " ++ msg ++ "\n" ++ stack.getD "")
    ∧ (∀ n : Int, Tools.BaseToolHandler.normalizeContent rt (JSValue.vnum n)
        = jsonOrString rt (JSValue.vnum n))
    ∧ (∀ b : Bool, Tools.BaseToolHandler.normalizeContent rt (JSValue.vbool b)
        = jsonOrString rt (JSValue.vbool b))
    ∧ (Tools.BaseToolHandler.normalizeContent rt JSValue.vnull
        = jsonOrString rt JSValue.vnull)
    ∧ (∀ fields : List (String × JSValue),
        Tools.BaseToolHandler.normalizeContent rt (JSValue.vobj fields)
          = jsonOrString rt (JSValue.vobj fields)) := by
  refine ⟨fun s => rfl, fun bytes => rfl, ?_, ?_, fun msg stack => rfl,
    fun n => rfl, fun b => rfl, rfl, fun fields => rfl⟩
  · intro items h
    simp [Tools.BaseToolHandler.normalizeContent, h]
  · intro items h
    simp [Tools.BaseToolHandler.normalizeContent, h]

theorem c4_witness :
    ([JSValue.vstr "alpha", JSValue.vstr "beta"].all JSValue.isStringValue = true)
    ∧ Tools.BaseToolHandler.normalizeContent demoRuntime
        (JSValue.varr [JSValue.vstr "alpha", JSValue.vstr "beta"])
      = String.intercalate "\n"
          ([JSValue.vstr "alpha", JSValue.vstr "beta"].map JSValue.strOrEmpty) :=
  ⟨by decide,
    (c4_normalization_precedence demoRuntime).2.2.1
      [JSValue.vstr "alpha", JSValue.vstr "beta"] (by decide)⟩

theorem handleEvent_reach (e : Tokenization.ShutdownEvent)
    (s : Tokenization.TokenCounterState)
    (h : s = Tokenization.initState ∨ s = Tokenization.releasedState) :
    Tokenization.handleEvent e s = Tokenization.initState
    ∨ Tokenization.handleEvent e s = Tokenization.releasedState := by
  rcases h with h | h <;> subst h <;> cases e <;> decide

theorem runEvents_reach (es : List Tokenization.ShutdownEvent)
    (s : Tokenization.TokenCounterState)
    (h : s = Tokenization.initState ∨ s = Tokenization.releasedState) :
    Tokenization.runEvents es s = Tokenization.initState
    ∨ Tokenization.runEvents es s = Tokenization.releasedState := by
  induction es generalizing s with
  | nil =>
      simpa [Tokenization.runEvents] using h
  | cons e es ih =>
      have hstep := handleEvent_reach e s h
      simpa [Tokenization.runEvents] using ih (Tokenization.handleEvent e s) hstep

theorem runEvents_released (es : List Tokenization.ShutdownEvent) :
    Tokenization.runEvents es Tokenization.releasedState
      = Tokenization.releasedState := by
  induction es with
  | nil => rfl
  | cons e es ih =>
      have hstep : Tokenization.handleEvent e Tokenization.releasedState
          = Tokenization.releasedState := by
        cases e <;> decide
      simpa [Tokenization.runEvents, hstep] using ih

/-- C5: over every sequence of termination-path invocations starting from
the constructed state, `tokenizer.free()` runs at most once, and once the
first release has happened every further event leaves the state
untouched. -/
theorem c5_release_at_most_once :
    (∀ es : List Tokenization.ShutdownEvent,
      (Tokenization.runEvents es Tokenization.initState).freeCount ≤ 1)
    ∧ (∀ es : List Tokenization.ShutdownEvent,
      Tokenization.runEvents es (Tokenization.cleanupListener Tokenization.initState)
        = Tokenization.cleanupListener Tokenization.initState) := by
  constructor
  · intro es
    rcases runEvents_reach es Tokenization.initState (Or.inl rfl) with h | h <;>
      rw [h] <;> decide
  · intro es
    have h0 : Tokenization.cleanupListener Tokenization.initState
        = Tokenization.releasedState := by decide
    rw [h0, runEvents_released]

/-- C6 (counterexample): starting the process with just two tool handler
instances acquires three tokenizers (the module-level singleton plus one
per handler), refuting "acquired at most once per process lifetime" and
"no additional instances when multiple consumers exist". -/
theorem c6_counterexample :
    ¬ ((ProcessModel.startProcess 2).tokenizersAcquired ≤ 1) := by
  decide

/-- C6 (amended): one tokenizer is acquired eagerly when the shared
utility module loads (the `tokenCounter` singleton), and every
`BaseToolHandler` instance eagerly acquires an additional one at
construction, so a process with `k` handlers holds `k + 1` tokenizer
instances. -/
theorem c6_tokenizer_per_consumer (k : Nat) :
    (ProcessModel.startProcess k).tokenizersAcquired = k + 1 := by
  induction k with
  | zero => rfl
  | succ k ih =>
      unfold ProcessModel.startProcess at ih ⊢
      rw [Function.iterate_succ_apply']
      have hstep : ∀ s : ProcessState,
          (ProcessModel.newBaseToolHandler s).tokenizersAcquired
            = s.tokenizersAcquired + 1 := fun s => rfl
      rw [hstep, ih]

/-- C8: `handleError` rethrows a typed `ObsidianError` unmodified, and
wraps any other failure into a 500-code error whose message names the
failing tool and whose details preserve the original diagnostic (the
stack for an `Error`, the raw value otherwise); it never returns
normally (its source return type is `never`, modelled by returning the
thrown error). -/
theorem c8_handle_error_policy (name msg : String) (e : ObsidianError)
    (stack : Option String) (v : JSValue) :
    Tools.BaseToolHandler.handleError name (CaughtValue.obsidianErr e) = e
    ∧ Tools.BaseToolHandler.handleError name (CaughtValue.jsError msg stack)
        = { message := Tools.BaseToolHandler.toolFailedMessage name msg
            code := 500
            details := ErrorDetails.originalError stack }
    ∧ Tools.BaseToolHandler.handleError name (CaughtValue.nonError v)
        = { message := Tools.BaseToolHandler.toolFailedUnknownMessage name
            code := 500
            details := ErrorDetails.raw v } :=
  ⟨rfl, rfl, rfl⟩

/-- C9: the inline truncation of the base tool handler and the shared
utility's truncation applied at the configured budget are one and the
same function (for the same tokenizer and the same environment). -/
theorem c9_truncation_consolidated (tk : Tokenizer) (env : Option Int) (text : String) :
    Tools.BaseToolHandler.truncateToTokenLimit tk env text
      = Tokenization.TokenCounter.truncateToTokenLimit tk text
          (Tokenization.MAX_TOKENS env) :=
  rfl

/-- C10: `createResponse` always returns exactly one content item, and
that item is a text content unit. -/
theorem c10_single_text_content (rt : JsRuntime) (tk : Tokenizer)
    (env : Option Int) (content : JSValue) :
    (Tools.BaseToolHandler.createResponse rt tk env content).length = 1
    ∧ (Tools.BaseToolHandler.createResponse rt tk env content).map TextContent.type
        = ["text"] :=
  ⟨rfl, rfl⟩
